import Mathlib

/-!
Shallow embedding of the MCP client session and agentic loop from
`src/04_supporting_prompts/client.py` and `src/04_supporting_prompts/agent.py`.

Provider round-trips (tool calls, resource reads, prompt fetches) and LLM calls
are modelled as explicit oracle arguments: `use_tool` takes the content-block
sequence the provider returned, `load_resource_context` takes a fetch function
`uri -> Except error contents`, the agentic loop takes a script of LLM
responses.  Python exceptions are modelled as `Except String` with the exact
message strings the source raises.
-/

namespace MCP

/-- Resource contents as in `mcp.types`: `TextResourceContents` carries `text`,
`BlobResourceContents` carries a base64 `blob`; both have an optional mime type. -/
inductive ResourceContent where
  | textRC (mimeType : Option String) (text : String)
  | blobRC (mimeType : Option String) (blob : String)
deriving DecidableEq, Repr

/-- A content block of a tool-call result, tagged the way
`use_tool` matches on `content.type`.  `other ty` stands for a block whose
`type` string is none of `"text"`, `"image"`, `"audio"`, `"resource"`. -/
inductive ToolContent where
  | text (t : String)
  | image (data : String)
  | audio (data : String)
  | resource (rc : ResourceContent)
  | other (ty : String)
deriving DecidableEq, Repr

/-- One arm of the `match content.type` statement in `use_tool`
(client.py lines 167-180): the string appended to `results`, or `none` when no
case of the match applies (Python then falls through silently). -/
def processContent : ToolContent → Option String
  | .text t => some t
  | .image d => some d
  | .audio d => some d
  | .resource (.textRC _ t) => some t
  | .resource (.blobRC _ b) => some b
  | .other _ => none

/-- `true` exactly on the content kinds the `match` in `use_tool` handles. -/
def knownContent : ToolContent → Bool
  | .other _ => false
  | _ => true

/-- The spec's fixed dispatch table (§4.3): text verbatim, image/audio payload,
resource text or blob.  Unknown kinds are outside the table; the `""` arm is
never reached under the `knownContent` hypothesis. -/
def dispatchSpec : ToolContent → String
  | .text t => t
  | .image d => d
  | .audio d => d
  | .resource (.textRC _ t) => t
  | .resource (.blobRC _ b) => b
  | .other _ => ""

/-- The mutable connection state of `MCPClient`: the `_connected` flag and the
`_session` handle (`Option`: `none` models Python `None`). -/
structure MCPClient where
  connected : Bool
  session : Option Nat
deriving DecidableEq, Repr

/-- How far the fallible steps of `connect` get (client.py lines 84-96):
the stdio subprocess launch can raise, entering the `ClientSession` context can
raise, `initialize()` (the handshake) can raise after `_session` was assigned,
or everything succeeds yielding a session handle. -/
inductive ConnectOutcome where
  | stdioFail (msg : String)
  | sessionFail (msg : String)
  | initFail (h : Nat) (msg : String)
  | success (h : Nat)
deriving DecidableEq, Repr

/-- `MCPClient.connect` (client.py lines 62-97).  Raises
`RuntimeError("Client is already connected")` when `_connected`; otherwise runs
the connection steps, and only after the handshake succeeds sets
`_connected = True`.  A step failure propagates its exception; `_connected`
stays `false` (after a handshake failure `_session` was already assigned). -/
def connect (c : MCPClient) (o : ConnectOutcome) : Except String Unit × MCPClient :=
  if c.connected then
    (.error "Client is already connected", c)
  else
    match o with
    | .stdioFail m => (.error m, c)
    | .sessionFail m => (.error m, c)
    | .initFail h m => (.error m, { c with session := some h })
    | .success h => (.ok (), { connected := true, session := some h })

/-- `MCPClient.disconnect` (client.py lines 312-323).  The guard
`if self._exit_stack:` is always taken (the `AsyncExitStack` is created in
`__init__` and never `None`); closing an empty stack succeeds, so disconnect is
total: it clears `_connected` and `_session` in every state. -/
def disconnect (_c : MCPClient) : MCPClient :=
  { connected := false, session := none }

/-- `MCPClient.use_tool` (client.py lines 135-184), with the provider's reply
(`tool_call_result.content`) passed in as `toolResult`.  Raises
`RuntimeError("Client not connected to a server")` when not connected;
otherwise folds over the content blocks appending each matched string
(an empty content list only logs a warning and yields `[]`). -/
def use_tool (c : MCPClient) (toolResult : List ToolContent) :
    Except String (List String) :=
  if !c.connected then
    .error "Client not connected to a server"
  else
    .ok (toolResult.foldl (fun acc b => acc ++ (processContent b).toList) [])

/-- Provider-native tool metadata (`mcp.types.Tool` fields used by
`get_available_tools`). -/
structure MCPToolInfo where
  name : String
  description : Option String
  inputSchema : String
deriving DecidableEq, Repr

/-- The dict `{"name": ..., "description": ..., "input_schema": ...}` built by
`get_available_tools` for Claude API compatibility. -/
structure ToolDescriptor where
  name : String
  description : Option String
  input_schema : String
deriving DecidableEq, Repr

/-- Resource metadata (`mcp.types.Resource` fields the agent uses). -/
structure ResourceInfo where
  uri : String
  name : String
  mimeType : Option String
deriving DecidableEq, Repr

/-- Prompt metadata (`mcp.types.Prompt` fields the agent uses). -/
structure PromptInfo where
  name : String
  description : Option String
deriving DecidableEq, Repr

/-- `MCPClient.get_available_tools` (client.py lines 99-133), with the
provider's `tools_result.tools` passed in.  Requires `_connected`; reshapes
each tool into the three-field descriptor; an empty list only logs a warning. -/
def get_available_tools (c : MCPClient) (tools : List MCPToolInfo) :
    Except String (List ToolDescriptor) :=
  if !c.connected then
    .error "Client not connected to a server"
  else
    .ok (tools.map fun t =>
      { name := t.name, description := t.description, input_schema := t.inputSchema })

/-- `MCPClient.get_available_resources` (client.py lines 186-206): requires
`_connected`, returns `resources_result.resources` as-is (empty only warns). -/
def get_available_resources (c : MCPClient) (resources : List ResourceInfo) :
    Except String (List ResourceInfo) :=
  if !c.connected then
    .error "Client not connected to a server"
  else
    .ok resources

/-- `MCPClient.get_available_prompts` (client.py lines 257-277): requires
`_connected`, returns `prompts_result.prompts` as-is (empty only warns). -/
def get_available_prompts (c : MCPClient) (prompts : List PromptInfo) :
    Except String (List PromptInfo) :=
  if !c.connected then
    .error "Client not connected to a server"
  else
    .ok prompts

/-- A content block for the LLM request, as built by `load_resource_context`
(agent.py lines 43-63): a `{"type": "text", ...}` dict or a
`{"type": "image", "source": {...}}` dict. -/
inductive ContextBlock where
  | text (t : String)
  | image (mediaType : String) (data : String)
deriving DecidableEq, Repr

/-- The per-content body of the loop in `load_resource_context` (agent.py
lines 43-65): text contents become a labelled text block; blob contents with
an image mime type become an inline image block; anything else is skipped with
a warning.  A missing (`none`) mime type models Python `None` (falsy). -/
def formatResourceBlock (uri : String) : ResourceContent → Option ContextBlock
  | .textRC _ t => some (.text ("[Resource: " ++ uri ++ "]\n" ++ t))
  | .blobRC mt b =>
    match mt with
    | some m => if m.startsWith "image/" then some (.image m b) else none
    | none => none

/-- `load_resource_context` (agent.py lines 23-70), with
`mcp_client.get_resource` abstracted as `fetch`.  Each URI's fetch and
processing sit inside `try/except Exception`, so a failing URI only logs and
contributes nothing; blocks accumulate in order into `context_blocks`. -/
def load_resource_context (fetch : String → Except String (List ResourceContent))
    (uris : List String) : List ContextBlock :=
  uris.foldl (fun acc uri =>
    match fetch uri with
    | .error _ => acc
    | .ok contents =>
      contents.foldl (fun acc2 ct => acc2 ++ (formatResourceBlock uri ct).toList) acc)
    []

/-- The `content` of an `mcp.types.PromptMessage` as `load_prompt_as_system`
inspects it: a plain Python `str`, a structured object with a `text` attribute,
or a structured object without one. -/
inductive PromptContent where
  | str (s : String)
  | textBlock (text : String)
  | otherBlock
deriving DecidableEq, Repr

/-- One role-tagged prompt message. -/
structure PromptMessage where
  role : String
  content : PromptContent
deriving DecidableEq, Repr

/-- The text `load_prompt_as_system` extracts from one message's content
(agent.py lines 96-101): the plain string, or the `text` attribute, or
nothing. -/
def promptText : PromptContent → Option String
  | .str s => some s
  | .textBlock t => some t
  | .otherBlock => none

/-- `load_prompt_as_system` (agent.py lines 73-107), with
`mcp_client.load_prompt` abstracted as its outcome `fetch`.  The whole body is
inside `try/except Exception`: any fetch error yields `""`.  On success the
extracted texts are accumulated in order and joined with `"\n\n"`. -/
def load_prompt_as_system (fetch : Except String (List PromptMessage)) : String :=
  match fetch with
  | .error _ => ""
  | .ok msgs =>
    String.intercalate "\n\n"
      (msgs.foldl (fun parts m => parts ++ (promptText m.content).toList) [])

/-- Tool-call arguments (`tool_use.input`, a JSON object) modelled as an
association list. -/
abbrev Args := List (String × String)

/-- An Anthropic `tool_use` response block: `{id, name, input}`. -/
structure ToolUseBlock where
  id : String
  name : String
  input : Args
deriving DecidableEq, Repr

/-- An LLM response content block: a text block (which has a `.text`
attribute) or a tool-use block (which does not). -/
inductive RespBlock where
  | text (t : String)
  | toolUse (tu : ToolUseBlock)
deriving DecidableEq, Repr

/-- The `.text` attribute of a response block when it has one
(`hasattr(content, "text")`). -/
def respText : RespBlock → Option String
  | .text t => some t
  | .toolUse _ => none

/-- The filter `block.type == "tool_use"` (agent.py lines 221-223). -/
def asToolUse : RespBlock → Option ToolUseBlock
  | .toolUse tu => some tu
  | .text _ => none

/-- A content item of a `user`-role message: the initial text, or a
`{"type": "tool_result", "tool_use_id": ..., "content": ...}` dict. -/
inductive UserBlock where
  | text (t : String)
  | toolResult (toolUseId : String) (content : String)
deriving DecidableEq, Repr

/-- One entry of `conversation_messages`. -/
inductive Msg where
  | user (content : List UserBlock)
  | assistant (content : List RespBlock)
deriving DecidableEq, Repr

/-- One LLM response: `{stop_reason, content}`. -/
structure LLMResponse where
  stop_reason : String
  content : List RespBlock
deriving DecidableEq, Repr

/-- What one run of the inner agentic loop produces: the final printed answer,
the tool invocations `(name, input)` in the order issued, and the accumulated
conversation. -/
structure LoopOut where
  answer : String
  invocations : List (String × Args)
  transcript : List Msg
deriving DecidableEq, Repr

/-- The sentinel printed when the final response has no usable text block
(agent.py line 263). -/
def noAnswerSentinel : String := "[No text response available]"

/-- Python's `text.strip()` is falsy exactly when the string has no
non-whitespace character; the loop's filter keeps a block iff its text is not
blank in this sense. -/
def isBlank (s : String) : Bool := s.data.all Char.isWhitespace

/-- The list-comprehension condition `hasattr(content, "text") and
content.text.strip()` (agent.py lines 254-258) as a partial map: the block's
text when it has a `.text` attribute and strips to something truthy. -/
def usableText (b : RespBlock) : Option String :=
  match respText b with
  | some s => if isBlank s then none else some s
  | none => none

/-- The inner `while True` agentic loop of `main` (agent.py lines 201-266).
The LLM is a script of responses consumed one per round (`none` when the
script runs out before the model stops requesting tools).  Each round appends
the assistant content to the conversation; on `stop_reason == "tool_use"` it
extracts the tool-use blocks in order, invokes each via the `tool` oracle
(`use_tool` result already flattened to strings), joins each result with
`"\n"` into one `tool_result` item, appends them as one user message and
recurses; otherwise it collects the blocks with a truthy `text.strip()` and
prints the first, or the sentinel. -/
def agentic_loop (tool : String → Args → List String) :
    List LLMResponse → List Msg → Option LoopOut
  | [], _ => none
  | r :: rest, msgs =>
    let msgs1 := msgs ++ [Msg.assistant r.content]
    if r.stop_reason = "tool_use" then
      let tus := r.content.filterMap asToolUse
      let results := tus.map fun tu =>
        UserBlock.toolResult tu.id (String.intercalate "\n" (tool tu.name tu.input))
      match agentic_loop tool rest (msgs1 ++ [Msg.user results]) with
      | none => none
      | some out =>
        some { out with
          invocations := tus.map (fun tu => (tu.name, tu.input)) ++ out.invocations }
    else
      let textBlocks := r.content.filterMap usableText
      some { answer := textBlocks.headD noAnswerSentinel,
             invocations := [], transcript := msgs1 }

/-! ### Helper lemmas -/

/-- Folding an optional-append accumulates exactly the `filterMap`. -/
theorem foldl_append_toList {α β : Type} (f : α → Option β) (l : List α) :
    ∀ acc : List β,
      l.foldl (fun a x => a ++ (f x).toList) acc = acc ++ l.filterMap f := by
  induction l with
  | nil => intro acc; simp
  | cons x l ih =>
    intro acc
    rw [List.foldl_cons, ih, List.filterMap_cons]
    cases f x <;> simp

/-- Under the connected guard, `use_tool` returns the `filterMap` of the
per-block dispatch. -/
theorem use_tool_eq_filterMap (c : MCPClient) (h : c.connected = true)
    (toolResult : List ToolContent) :
    use_tool c toolResult = .ok (toolResult.filterMap processContent) := by
  simp only [use_tool, h, Bool.not_true, Bool.false_eq_true, if_false,
    foldl_append_toList, List.nil_append]

/-- When every block kind is handled by the `match`, the dispatch drops
nothing: the result is the order-preserving `map` of the spec's table. -/
theorem filterMap_processContent_eq_map (l : List ToolContent)
    (h : ∀ b ∈ l, knownContent b = true) :
    l.filterMap processContent = l.map dispatchSpec := by
  induction l with
  | nil => rfl
  | cons b l ih =>
    have hb := h b (List.mem_cons_self b l)
    have hl : ∀ x ∈ l, knownContent x = true :=
      fun x hx => h x (List.mem_cons_of_mem b hx)
    cases b with
    | text t => simp [List.filterMap_cons, processContent, dispatchSpec, ih hl]
    | image d => simp [List.filterMap_cons, processContent, dispatchSpec, ih hl]
    | audio d => simp [List.filterMap_cons, processContent, dispatchSpec, ih hl]
    | resource rc =>
      cases rc <;> simp [List.filterMap_cons, processContent, dispatchSpec, ih hl]
    | other ty => simp [knownContent] at hb

/-! ### C1 -/

/-- C1 counterexample: a tool result whose single content block has a kind
outside text/image/audio/resource does not make `use_tool` raise — it returns
`ok []`, the unknown block silently dropped (the Python `match` has no default
arm, so an unmatched `content.type` falls through without effect). -/
theorem unknown_content_kind_not_error_cex :
    use_tool ⟨true, some 0⟩ [.other "unknown_kind"] = .ok ([] : List String) := rfl

/-- C1 amended: for a connected client, `use_tool` silently drops every
content block of unknown kind — it returns the strings of the matched blocks
(the `filterMap` of the dispatch) and never raises on unknown kinds, which
contribute `none`. -/
theorem use_tool_drops_unknown_content (c : MCPClient) (h : c.connected = true)
    (toolResult : List ToolContent) (ty : String) :
    use_tool c toolResult = .ok (toolResult.filterMap processContent)
    ∧ processContent (.other ty) = none :=
  ⟨use_tool_eq_filterMap c h toolResult, rfl⟩

/-- Witness for C1's amended theorem at a concrete mixed result. -/
theorem use_tool_drops_unknown_content_w :
    use_tool ⟨true, some 0⟩ [ToolContent.text "a", .other "x", .image "b"]
      = .ok ["a", "b"]
    ∧ processContent (.other "x") = none :=
  have h := use_tool_drops_unknown_content ⟨true, some 0⟩ rfl
    [ToolContent.text "a", .other "x", .image "b"] "x"
  ⟨h.1.trans rfl, h.2⟩

/-! ### C5 -/

/-- C5: `connect` on an already-connected client fails with the
`AlreadyConnected` error and changes nothing (no connection work is
performed, whatever the steps would have produced); `connect` on a
disconnected client whose steps all succeed ends in the `Connected` state. -/
theorem connect_already_connected_precondition (c : MCPClient) :
    (c.connected = true →
      ∀ o, connect c o = (.error "Client is already connected", c))
    ∧ (c.connected = false → ∀ h,
        connect c (.success h)
          = (.ok (), { connected := true, session := some h })) := by
  constructor
  · intro hc o; simp [connect, hc]
  · intro hc h; simp [connect, hc]

/-- Witness for C5 at a connected and at a disconnected client. -/
theorem connect_already_connected_precondition_w :
    connect ⟨true, some 5⟩ (.success 7)
      = (.error "Client is already connected", ⟨true, some 5⟩)
    ∧ connect ⟨false, none⟩ (.success 7) = (.ok (), ⟨true, some 7⟩) :=
  ⟨(connect_already_connected_precondition ⟨true, some 5⟩).1 rfl _,
   (connect_already_connected_precondition ⟨false, none⟩).2 rfl 7⟩

/-! ### C6 -/

/-- C6: `disconnect` is total (it is a plain function, never an error) and
idempotent: from any state it lands in the released state — `_connected`
false, `_session` cleared — and running it again changes nothing. -/
theorem disconnect_idempotent_total (c : MCPClient) :
    (disconnect c).connected = false
    ∧ (disconnect c).session = none
    ∧ disconnect (disconnect c) = disconnect c :=
  ⟨rfl, rfl, rfl⟩

/-! ### C7 -/

/-- C7: for a connected client, `use_tool` maps the provider's content blocks
to strings by the fixed dispatch table, preserving order, whenever every block
kind is one the table covers; an empty content sequence yields `ok []`, and a
single text block `"4 + 4 = 8"` yields exactly `["4 + 4 = 8"]`. -/
theorem use_tool_dispatch_order_preserving (c : MCPClient)
    (h : c.connected = true) (toolResult : List ToolContent)
    (hknown : ∀ b ∈ toolResult, knownContent b = true) :
    use_tool c toolResult = .ok (toolResult.map dispatchSpec)
    ∧ use_tool c [] = .ok []
    ∧ use_tool c [.text "4 + 4 = 8"] = .ok ["4 + 4 = 8"] := by
  refine ⟨?_, ?_, ?_⟩
  · rw [use_tool_eq_filterMap c h toolResult,
      filterMap_processContent_eq_map toolResult hknown]
  · exact use_tool_eq_filterMap c h []
  · exact use_tool_eq_filterMap c h [.text "4 + 4 = 8"]

/-- Witness for C7 at a concrete result exercising every dispatch arm. -/
theorem use_tool_dispatch_order_preserving_w :
    use_tool ⟨true, some 0⟩
        [ToolContent.text "a", .image "i", .audio "u",
         .resource (.textRC none "rt"),
         .resource (.blobRC (some "application/pdf") "rb")]
      = .ok ["a", "i", "u", "rt", "rb"]
    ∧ use_tool ⟨true, some 0⟩ [] = .ok []
    ∧ use_tool ⟨true, some 0⟩ [.text "4 + 4 = 8"] = .ok ["4 + 4 = 8"] :=
  have h := use_tool_dispatch_order_preserving ⟨true, some 0⟩ rfl
    [ToolContent.text "a", .image "i", .audio "u",
     .resource (.textRC none "rt"),
     .resource (.blobRC (some "application/pdf") "rb")]
    (by decide)
  ⟨h.1.trans rfl, h.2.1, h.2.2⟩

/-! ### C8 -/

/-- C8: each discovery operation fails with the `NotConnected` error while
disconnected, whatever the provider would have returned; while connected, a
provider exposing zero items yields `ok []` — a valid result, not an error. -/
theorem discovery_requires_connection_empty_ok (c : MCPClient) :
    (c.connected = false →
      ∀ (ts : List MCPToolInfo) (rs : List ResourceInfo) (ps : List PromptInfo),
        get_available_tools c ts = .error "Client not connected to a server"
        ∧ get_available_resources c rs = .error "Client not connected to a server"
        ∧ get_available_prompts c ps = .error "Client not connected to a server")
    ∧ (c.connected = true →
        get_available_tools c [] = .ok []
        ∧ get_available_resources c [] = .ok []
        ∧ get_available_prompts c [] = .ok []) := by
  constructor
  · intro hc ts rs ps
    refine ⟨?_, ?_, ?_⟩ <;>
      simp [get_available_tools, get_available_resources, get_available_prompts, hc]
  · intro hc
    refine ⟨?_, ?_, ?_⟩ <;>
      simp [get_available_tools, get_available_resources, get_available_prompts, hc]

/-- Witness for C8 at a disconnected and at a connected client. -/
theorem discovery_requires_connection_empty_ok_w :
    (get_available_tools ⟨false, none⟩ []
        = .error "Client not connected to a server"
      ∧ get_available_resources ⟨false, none⟩ []
        = .error "Client not connected to a server"
      ∧ get_available_prompts ⟨false, none⟩ []
        = .error "Client not connected to a server")
    ∧ (get_available_tools ⟨true, some 0⟩ [] = .ok []
      ∧ get_available_resources ⟨true, some 0⟩ [] = .ok []
      ∧ get_available_prompts ⟨true, some 0⟩ [] = .ok []) :=
  ⟨(discovery_requires_connection_empty_ok ⟨false, none⟩).1 rfl [] [] [],
   (discovery_requires_connection_empty_ok ⟨true, some 0⟩).2 rfl⟩

/-! ### C10 -/

/-- C10: `connect` sets `_connected` only after the handshake: if any step
fails, the error propagates but the state stays disconnected, so a retried
`connect` with succeeding steps is not rejected with `AlreadyConnected` and a
subsequent `disconnect` still lands in the released state. -/
theorem connect_failure_leaves_disconnected (c : MCPClient)
    (o : ConnectOutcome) (hc : c.connected = false)
    (hfail : ∀ h, o ≠ ConnectOutcome.success h) :
    (∃ m, (connect c o).1 = .error m)
    ∧ (connect c o).2.connected = false
    ∧ (∀ h, connect (connect c o).2 (.success h)
        = (.ok (), { connected := true, session := some h }))
    ∧ disconnect (connect c o).2 = { connected := false, session := none } := by
  cases o with
  | stdioFail m =>
    exact ⟨⟨m, by simp [connect, hc]⟩, by simp [connect, hc],
      fun _ => by simp [connect, hc], rfl⟩
  | sessionFail m =>
    exact ⟨⟨m, by simp [connect, hc]⟩, by simp [connect, hc],
      fun _ => by simp [connect, hc], rfl⟩
  | initFail hd m =>
    exact ⟨⟨m, by simp [connect, hc]⟩, by simp [connect, hc],
      fun _ => by simp [connect, hc], rfl⟩
  | success hd => exact absurd rfl (hfail hd)

/-- Witness for C10: a handshake failure on a fresh client, then a successful
retry. -/
theorem connect_failure_leaves_disconnected_w :
    (∃ m, (connect ⟨false, none⟩ (.initFail 3 "handshake failed")).1 = .error m)
    ∧ (connect ⟨false, none⟩ (.initFail 3 "handshake failed")).2.connected = false
    ∧ (∀ h, connect (connect ⟨false, none⟩ (.initFail 3 "handshake failed")).2
        (.success h) = (.ok (), { connected := true, session := some h }))
    ∧ disconnect (connect ⟨false, none⟩ (.initFail 3 "handshake failed")).2
        = { connected := false, session := none } :=
  connect_failure_leaves_disconnected ⟨false, none⟩ (.initFail 3 "handshake failed")
    rfl (fun _ hcontra => ConnectOutcome.noConfusion hcontra)

/-! ### C4 -/

/-- The accumulator form of `load_resource_context`'s double loop equals the
join of per-URI block lists. -/
theorem load_resource_context_foldl_eq
    (fetch : String → Except String (List ResourceContent)) (uris : List String) :
    ∀ acc : List ContextBlock,
      uris.foldl (fun acc uri =>
        match fetch uri with
        | .error _ => acc
        | .ok contents =>
          contents.foldl (fun acc2 ct => acc2 ++ (formatResourceBlock uri ct).toList) acc)
        acc
      = acc ++ (uris.map fun uri =>
          match fetch uri with
          | .error _ => []
          | .ok contents => contents.filterMap (formatResourceBlock uri)).flatten := by
  induction uris with
  | nil => intro acc; simp
  | cons uri uris ih =>
    intro acc
    rw [List.foldl_cons, List.map_cons, List.flatten_cons, ih]
    cases hfu : fetch uri <;> simp [foldl_append_toList, List.append_assoc]

/-- C4: `load_resource_context` is total (it returns a block list, any fetch
error being caught inside the per-URI `try/except`), a failing URI contributes
no blocks, and the surviving URIs' blocks appear in the same relative order —
the result is the in-order join of each URI's own blocks.  In particular, for
one URI whose fetch throws and one returning a text payload, the result is
exactly the successful URI's labelled text block. -/
theorem load_resource_context_per_uri_isolation :
    (∀ (fetch : String → Except String (List ResourceContent)) (uris : List String),
      load_resource_context fetch uris
        = (uris.map fun uri =>
            match fetch uri with
            | .error _ => []
            | .ok contents => contents.filterMap (formatResourceBlock uri)).flatten)
    ∧ load_resource_context
        (fun u => if u = "bad" then .error "boom" else .ok [.textRC none "hello"])
        ["bad", "good"]
        = [.text "[Resource: good]\nhello"] := by
  constructor
  · intro fetch uris
    rw [load_resource_context, load_resource_context_foldl_eq, List.nil_append]
  · rfl

/-! ### C9 -/

/-- C9: `load_prompt_as_system` returns `""` on any fetch error, never
propagating it; on success it flattens, in order, every message whose content
is a plain string or has a `text` field, joined with a blank-line separator —
as on the three-message example mixing all content shapes. -/
theorem load_prompt_as_system_flatten_or_empty :
    (∀ e, load_prompt_as_system (.error e) = "")
    ∧ (∀ msgs : List PromptMessage,
        load_prompt_as_system (.ok msgs)
          = String.intercalate "\n\n" (msgs.filterMap fun m => promptText m.content))
    ∧ load_prompt_as_system
        (.ok [⟨"user", .str "a"⟩, ⟨"user", .otherBlock⟩, ⟨"assistant", .textBlock "b"⟩])
        = "a\n\nb" := by
  refine ⟨fun e => rfl, fun msgs => ?_, rfl⟩
  rw [load_prompt_as_system, foldl_append_toList, List.nil_append]

/-! ### Agentic loop lemmas -/

/-- A round whose stop reason is not `"tool_use"` ends the loop: the answer is
the first block surviving the truthy-`strip` filter (or the sentinel), no
tools are invoked, and the assistant content was appended to the
conversation. -/
theorem agentic_loop_no_tool_use (tool : String → Args → List String)
    (sr : String) (content : List RespBlock) (rest : List LLMResponse)
    (msgs : List Msg) (h : sr ≠ "tool_use") :
    agentic_loop tool (⟨sr, content⟩ :: rest) msgs =
      some { answer := (content.filterMap usableText).headD noAnswerSentinel,
             invocations := [],
             transcript := msgs ++ [Msg.assistant content] } := by
  simp only [agentic_loop]
  rw [if_neg h]

/-- `usableText` on a text block is the truthy-`strip` gate. -/
theorem usableText_text (t : String) :
    usableText (.text t) = if isBlank t then none else some t := rfl

/-- The truthy-`strip` filter keeps a text block exactly when it is non-blank,
so the head of the filtered list is the first non-blank text block. -/
theorem blank_filter_head_eq_find (l : List RespBlock) :
    (l.filterMap usableText).head?
      = (l.filterMap respText).find? (fun s => !(isBlank s)) := by
  induction l with
  | nil => rfl
  | cons b l ih =>
    cases b with
    | toolUse tu => exact ih
    | text t =>
      have h2 : List.filterMap respText (RespBlock.text t :: l)
          = t :: List.filterMap respText l := by
        rw [List.filterMap_cons]; rfl
      cases hb : isBlank t with
      | true =>
        have hneg : ¬(!(isBlank t)) = true := by simp [hb]
        have h1 : List.filterMap usableText (RespBlock.text t :: l)
            = List.filterMap usableText l := by
          rw [List.filterMap_cons, usableText_text, if_pos hb]
        rw [h1, h2, ih, List.find?_cons_of_neg (p := fun s => !(isBlank s)) _ hneg]
      | false =>
        have hpos : (!(isBlank t)) = true := by simp [hb]
        have h1 : List.filterMap usableText (RespBlock.text t :: l)
            = t :: List.filterMap usableText l := by
          rw [List.filterMap_cons, usableText_text,
            if_neg (by simp [hb])]
        rw [h1, h2, List.find?_cons_of_pos (p := fun s => !(isBlank s)) _ hpos]
        rfl

/-! ### C2 -/

/-- C2: with an LLM whose first response stops with `tool_use` carrying
exactly one tool-use block and whose second response has any other stop reason
and a single text block `"42"`, one pass of the agentic loop invokes exactly
the named tool, exactly once, with exactly the carried arguments, and ends
with final answer `"42"`. -/
theorem agentic_loop_two_round_exchange (tool : String → Args → List String)
    (tu : ToolUseBlock) (sr : String) (init : List Msg)
    (hsr : sr ≠ "tool_use") :
    (agentic_loop tool [⟨"tool_use", [.toolUse tu]⟩, ⟨sr, [.text "42"]⟩] init).map
        LoopOut.answer = some "42"
    ∧ (agentic_loop tool [⟨"tool_use", [.toolUse tu]⟩, ⟨sr, [.text "42"]⟩] init).map
        LoopOut.invocations = some [(tu.name, tu.input)] := by
  have hstep : agentic_loop tool
      [⟨"tool_use", [.toolUse tu]⟩, ⟨sr, [.text "42"]⟩] init
      = match agentic_loop tool [⟨sr, [.text "42"]⟩]
            (init ++ [Msg.assistant [.toolUse tu]]
              ++ [Msg.user [UserBlock.toolResult tu.id
                    (String.intercalate "\n" (tool tu.name tu.input))]]) with
        | none => none
        | some out =>
          some { out with invocations := (tu.name, tu.input) :: out.invocations } :=
    rfl
  rw [hstep, agentic_loop_no_tool_use tool sr [.text "42"] [] _ hsr]
  exact ⟨rfl, rfl⟩

/-- Witness for C2: a concrete `add` tool call answered `"8"`, then `"42"`. -/
theorem agentic_loop_two_round_exchange_w :
    (agentic_loop (fun _ _ => ["8"])
        [⟨"tool_use", [.toolUse ⟨"id1", "add", [("a", "4"), ("b", "4")]⟩]⟩,
         ⟨"end_turn", [.text "42"]⟩] []).map LoopOut.answer = some "42"
    ∧ (agentic_loop (fun _ _ => ["8"])
        [⟨"tool_use", [.toolUse ⟨"id1", "add", [("a", "4"), ("b", "4")]⟩]⟩,
         ⟨"end_turn", [.text "42"]⟩] []).map LoopOut.invocations
      = some [("add", [("a", "4"), ("b", "4")])] :=
  agentic_loop_two_round_exchange (fun _ _ => ["8"])
    ⟨"id1", "add", [("a", "4"), ("b", "4")]⟩ "end_turn" [] (by decide)

/-! ### C3 -/

/-- C3 counterexample: for a final response whose text blocks are
`[" ", "hello"]`, the code's final answer is `"hello"`, but the first
non-empty text block is `" "` (a whitespace-only string is non-empty): the
loop filters on truthy `text.strip()`, not on non-emptiness, so the claim as
stated fails at this input. -/
theorem final_answer_blank_block_cex :
    (agentic_loop (fun _ _ => []) [⟨"end_turn", [.text " ", .text "hello"]⟩] []).map
        LoopOut.answer = some "hello"
    ∧ ((([RespBlock.text " ", RespBlock.text "hello"].filterMap
          respText).find? (fun s => s != "")).getD noAnswerSentinel) = " "
    ∧ " " ≠ "hello" :=
  ⟨rfl, rfl, by decide⟩

/-- C3 amended: for a response with a non-`tool_use` stop reason, the final
answer is the first text block that is non-blank — non-empty after stripping
whitespace, as Python's truthy `text.strip()` decides — taken in content
order; if no such block exists, the `"[No text response available]"` sentinel
is emitted instead of silence. -/
theorem final_answer_first_nonblank_text (tool : String → Args → List String)
    (sr : String) (content : List RespBlock) (msgs : List Msg)
    (h : sr ≠ "tool_use") :
    (agentic_loop tool [⟨sr, content⟩] msgs).map LoopOut.answer
      = some (((content.filterMap respText).find? (fun s => !(isBlank s))).getD
          noAnswerSentinel) := by
  rw [agentic_loop_no_tool_use tool sr content [] msgs h]
  simp only [Option.map_some']
  rw [List.headD_eq_head?_getD, blank_filter_head_eq_find]

/-- Witness for C3's amended theorem at the spec's own example
`["", "hello"]`, and at a content with no usable text block. -/
theorem final_answer_first_nonblank_text_w :
    (agentic_loop (fun _ _ => []) [⟨"end_turn", [.text "", .text "hello"]⟩] []).map
        LoopOut.answer = some "hello"
    ∧ (agentic_loop (fun _ _ => []) [⟨"end_turn", [.text ""]⟩] []).map
        LoopOut.answer = some noAnswerSentinel :=
  ⟨(final_answer_first_nonblank_text (fun _ _ => []) "end_turn"
      [.text "", .text "hello"] [] (by decide)).trans rfl,
   (final_answer_first_nonblank_text (fun _ _ => []) "end_turn"
      [.text ""] [] (by decide)).trans rfl⟩

end MCP
